import Mathlib

/-!
Shallow embedding of the OAuth token-lifecycle and identity components of the
content-automation API (TypeScript source: `oauth.service.ts`, `oauth.controller.ts`,
`auth.service.ts`, `auth.controller.ts`, drizzle schema `oauth_providers`).

Modelling conventions:
* Timestamps (`Date`) are milliseconds since epoch, as `Int` (`Millis`).
* The database table `oauth_providers` is a list of rows; `select ... limit 1`
  is `(filter ...).head?`; uuid `defaultRandom` ids are supplied as a `freshId`
  parameter; `new Date()` is supplied as a `now` parameter.
* Nullable TS fields are `Option`; the JS `a || b` idiom on strings (undefined
  and the empty string are falsy) is `jsOrString`.
* External HTTP calls (`fetch`) are modelled by passing the provider's response
  as a value; a thrown JS `Error` is `Except.error` carrying the message.
-/

abbrev Millis := Int

/-- JS `a || b` where `a b : string | undefined`: `undefined` and `""` are falsy. -/
def jsOrString (a b : Option String) : Option String :=
  match a with
  | some s => if s = "" then b else some s
  | none => b

/-- One row of the `oauth_providers` table (drizzle schema). -/
structure OAuthRow where
  id : Nat
  userId : String
  provider : String
  providerUserId : String
  accessToken : String
  refreshToken : Option String
  tokenExpiresAt : Option Millis
  scopes : Option (List String)
  createdAt : Millis
  updatedAt : Millis
deriving Repr, DecidableEq

abbrev OAuthStore := List OAuthRow

/-- The `where and(eq userId, eq provider)` condition. -/
def rowMatches (uid prov : String) (r : OAuthRow) : Bool :=
  r.userId == uid && r.provider == prov

/-- Model of `OAuthService.getOAuthProvider`: select the first row for (userId, provider). -/
def getOAuthProvider (store : OAuthStore) (uid prov : String) : Option OAuthRow :=
  (store.filter (rowMatches uid prov)).head?

/-- The `data` argument of `OAuthService.storeOAuthProvider`. -/
structure StoreOAuthData where
  providerUserId : String
  accessToken : String
  refreshToken : Option String
  expiresIn : Int
  scopes : List String
deriving Repr, DecidableEq

/-- Model of `OAuthService.storeOAuthProvider`: upsert the connection for (userId, provider).
If a row exists it is updated in place (access token, refresh token via
`data.refreshToken || existing.refreshToken`, expiry, scopes, updatedAt);
otherwise a new row is inserted. Returns the new store and the returned row. -/
def storeOAuthProvider (now : Millis) (freshId : Nat) (store : OAuthStore)
    (userId provider : String) (data : StoreOAuthData) : OAuthStore × OAuthRow :=
  let tokenExpiresAt : Millis := now + data.expiresIn * 1000
  match getOAuthProvider store userId provider with
  | some existing =>
    let updated : OAuthRow :=
      { existing with
        accessToken := data.accessToken
        refreshToken := jsOrString data.refreshToken existing.refreshToken
        tokenExpiresAt := some tokenExpiresAt
        scopes := some data.scopes
        updatedAt := now }
    (store.map (fun r => if r.id == existing.id then updated else r), updated)
  | none =>
    let newProvider : OAuthRow :=
      { id := freshId
        userId := userId
        provider := provider
        providerUserId := data.providerUserId
        accessToken := data.accessToken
        refreshToken := data.refreshToken
        tokenExpiresAt := some tokenExpiresAt
        scopes := some data.scopes
        createdAt := now
        updatedAt := now }
    (store ++ [newProvider], newProvider)

/-- Model of `OAuthService.isTokenExpired`: `if (!expiresAt) return true; return new Date() >= expiresAt`. -/
def isTokenExpired (now : Millis) (expiresAt : Option Millis) : Bool :=
  match expiresAt with
  | none => true
  | some t => now ≥ t

/-- The delete in `OAuthController.linkedInDisconnect`:
`delete from oauth_providers where userId = uid and provider = 'linkedin'`. -/
def removeOAuthProvider (store : OAuthStore) (uid prov : String) : OAuthStore :=
  store.filter (fun r => !(rowMatches uid prov r))

/-! ### Provider Adapter: authorization URL (`OAuthService.getLinkedInAuthUrl`) -/

/-- Characters that `URLSearchParams.toString()` (application/x-www-form-urlencoded)
leaves unescaped: ASCII alphanumerics and `*`, `-`, `.`, `_`. -/
def isFormSafe (c : Char) : Bool :=
  (('a' ≤ c && c ≤ 'z') || ('A' ≤ c && c ≤ 'Z') || ('0' ≤ c && c ≤ '9')
    || c == '*' || c == '-' || c == '.' || c == '_')

def hexDigitChar (n : Nat) : Char :=
  if n < 10 then Char.ofNat (48 + n) else Char.ofNat (55 + n)

/-- Percent-encode one byte as `%XX` (uppercase hex). -/
def percentByte (b : Nat) : List Char :=
  ['%', hexDigitChar (b / 16), hexDigitChar (b % 16)]

/-- Form-url-encode one character: safe characters pass through, a space becomes
`+`, everything else is percent-encoded per UTF-8 byte. -/
def encodeFormChar (c : Char) : List Char :=
  if isFormSafe c then [c]
  else if c == ' ' then ['+']
  else ((String.utf8EncodeChar c).map (fun b => percentByte b.toNat)).flatten

def formEncodeList : List Char → List Char
  | [] => []
  | c :: cs => encodeFormChar c ++ formEncodeList cs

/-- Encoding of a string in `application/x-www-form-urlencoded` form, as produced by
`URLSearchParams.toString()` for each value. -/
def formEncode (s : String) : String := ⟨formEncodeList s.data⟩

/-- Model of `OAuthService.getLinkedInAuthUrl(state)`: builds
`https://www.linkedin.com/oauth/v2/authorization?` followed by the
`URLSearchParams` serialization with keys in insertion order:
response_type, client_id, redirect_uri, state, scope. -/
def getLinkedInAuthUrl (clientId callbackUrl state : String) : String :=
  "https://www.linkedin.com/oauth/v2/authorization?response_type=code&client_id="
    ++ formEncode clientId
    ++ "&redirect_uri=" ++ formEncode callbackUrl
    ++ "&state=" ++ formEncode state
    ++ "&scope=" ++ formEncode "openid profile email w_member_social"

/-- Bool test: is `n` a prefix of `h` (character lists). -/
def startsWithChars : List Char → List Char → Bool
  | [], _ => true
  | _ :: _, [] => false
  | a :: as, b :: bs => a == b && startsWithChars as bs

/-- Bool test: does `n` occur as a contiguous infix of `h`. -/
def containsChars (n : List Char) (h : List Char) : Bool :=
  match h with
  | [] => startsWithChars n []
  | _ :: t => startsWithChars n h || containsChars n t

/-- Substring containment test on strings. -/
def strContains (hay needle : String) : Bool := containsChars needle.data hay.data

/-! ### Provider Adapter: code exchange and profile fetch -/

/-- The provider's HTTP response to the token-endpoint POST, as observed by
`OAuthService.exchangeLinkedInCode`. The JSON body carries `access_token`,
`expires_in`, optionally `refresh_token`, and (per OAuth2) possibly a `scope`
field that the code never reads. -/
structure TokenHttpResponse where
  ok : Bool
  errorText : String
  access_token : String
  expires_in : Int
  refresh_token : Option String
  scope : Option String
deriving Repr, DecidableEq

structure TokenData where
  accessToken : String
  expiresIn : Int
  refreshToken : Option String
deriving Repr, DecidableEq

/-- Model of `OAuthService.exchangeLinkedInCode`: on a non-ok response throws
`Failed to exchange code: <body>`; otherwise picks `access_token`,
`expires_in`, `refresh_token` out of the JSON. -/
def exchangeLinkedInCode (resp : TokenHttpResponse) : Except String TokenData :=
  if resp.ok then
    .ok { accessToken := resp.access_token
          expiresIn := resp.expires_in
          refreshToken := resp.refresh_token }
  else
    .error ("Failed to exchange code: " ++ resp.errorText)

/-- The provider's HTTP response to the userinfo GET, as observed by
`OAuthService.getLinkedInProfile`. -/
structure UserinfoHttpResponse where
  ok : Bool
  sub : String
  email : String
  name : Option String
  given_name : String
  family_name : String
deriving Repr, DecidableEq

structure LinkedInProfile where
  id : String
  email : String
  name : String
deriving Repr, DecidableEq

/-- Model of `OAuthService.getLinkedInProfile`: throws `Failed to fetch LinkedIn profile`
on a non-ok response; otherwise returns `{id: sub, email, name: name || given_name + ' ' + family_name}`. -/
def getLinkedInProfile (resp : UserinfoHttpResponse) : Except String LinkedInProfile :=
  if resp.ok then
    .ok { id := resp.sub
          email := resp.email
          name := (jsOrString resp.name
            (some (resp.given_name ++ " " ++ resp.family_name))).getD "" }
  else
    .error "Failed to fetch LinkedIn profile"

/-! ### OAuth Orchestrator (`OAuthController`) -/

/-- Outcome of `JSON.parse(Buffer.from(state, 'base64').toString('utf-8'))`
followed by `decoded.userId` in `linkedInCallback`. `failure` is a thrown
parse error (or a property access on `null`), caught by the inner `catch`;
`value uid?` is a successful parse, where `uid?` is `none` when the decoded
object has no `userId` property (JS yields `undefined` without throwing). -/
inductive StateDecode where
  | failure
  | value (userId : Option String)
deriving Repr, DecidableEq

inductive CallbackResponse where
  /-- HTTP 400 `Missing code or state parameter` -/
  | badRequestMissing
  /-- HTTP 400 `Invalid state parameter` -/
  | badRequestInvalidState
  /-- HTTP 200 `LinkedIn account connected successfully` with connectedEmail/Name -/
  | okConnected (connectedEmail connectedName : String)
  /-- HTTP 500 `Failed to connect LinkedIn account` with the thrown message as details -/
  | serverError (details : String)
deriving Repr, DecidableEq

/-- The scope list `linkedInCallback` passes to `storeOAuthProvider`. -/
def callbackScopes : List String := ["openid", "profile", "email", "w_member_social"]

/-- Model of `OAuthController.linkedInCallback`. Query parameters and the decode outcome
of `state` come first; the external responses (`tokenResp`, `userResp`) model the
two `fetch` calls. When the decoded state has no `userId`, the JS code passes
`undefined` on to `storeOAuthProvider`; the `user_id` column is `notNull`, so
the write is rejected by the database and the outer catch maps it to a 500 —
modelled here as a `serverError` with the store unchanged. -/
def linkedInCallback (now : Millis) (freshId : Nat) (store : OAuthStore)
    (code? state? : Option String) (decoded : StateDecode)
    (tokenResp : TokenHttpResponse) (userResp : UserinfoHttpResponse) :
    CallbackResponse × OAuthStore :=
  match code?, state? with
  | none, _ => (.badRequestMissing, store)
  | some _, none => (.badRequestMissing, store)
  | some _, some _ =>
    match decoded with
    | .failure => (.badRequestInvalidState, store)
    | .value uid? =>
      match exchangeLinkedInCode tokenResp with
      | .error e => (.serverError e, store)
      | .ok tokenData =>
        match getLinkedInProfile userResp with
        | .error e => (.serverError e, store)
        | .ok profile =>
          match uid? with
          | none =>
            (.serverError "null value in column \x22user_id\x22 violates not-null constraint",
              store)
          | some userId =>
            let result := storeOAuthProvider now freshId store userId "linkedin"
              { providerUserId := profile.id
                accessToken := tokenData.accessToken
                refreshToken := tokenData.refreshToken
                expiresIn := tokenData.expiresIn
                scopes := callbackScopes }
            (.okConnected profile.email profile.name, result.1)

inductive StatusResponse where
  /-- HTTP 401 `Authentication required` -/
  | unauthorized
  /-- HTTP 200 connected false, canPost false -/
  | okNotConnected
  /-- HTTP 200 connected true, with canPost, expiresAt, scopes, needsRefresh -/
  | okConnected (canPost : Bool) (expiresAt : Option Millis)
      (scopes : Option (List String)) (needsRefresh : Bool)
deriving Repr, DecidableEq

/-- Model of `provider.scopes?.includes('w_member_social')` with a `null` scopes column
treated as falsy (the JS expression then yields `undefined`). -/
def scopesAllowPost (scopes : Option (List String)) : Bool :=
  match scopes with
  | some l => l.contains "w_member_social"
  | none => false

/-- Model of `OAuthController.linkedInStatus`: 401 without an authenticated user,
`{connected:false, canPost:false}` without a stored row, otherwise
`canPost = !isExpired && scopes?.includes('w_member_social')` and
`needsRefresh = isExpired`. -/
def linkedInStatus (now : Millis) (store : OAuthStore) (authUserId : Option String) :
    StatusResponse :=
  match authUserId with
  | none => .unauthorized
  | some uid =>
    match getOAuthProvider store uid "linkedin" with
    | none => .okNotConnected
    | some p =>
      let expired := isTokenExpired now p.tokenExpiresAt
      .okConnected (!expired && scopesAllowPost p.scopes) p.tokenExpiresAt p.scopes expired

inductive DisconnectResponse where
  /-- HTTP 401 `Authentication required` -/
  | unauthorized
  /-- HTTP 200 `LinkedIn account disconnected successfully` -/
  | okDisconnected
deriving Repr, DecidableEq

/-- Model of `OAuthController.linkedInDisconnect`: 401 without an authenticated user,
otherwise delete the (userId, 'linkedin') rows and return 200. -/
def linkedInDisconnect (store : OAuthStore) (authUserId : Option String) :
    DisconnectResponse × OAuthStore :=
  match authUserId with
  | none => (.unauthorized, store)
  | some uid => (.okDisconnected, removeOAuthProvider store uid "linkedin")

/-! ### Identity Service (`AuthService`, `AuthController`) -/

structure UserPreferences where
  brand_voice : String
  tone : String
  default_hashtags : List String
deriving Repr, DecidableEq

/-- One row of the `users` table (the fields `AuthService` reads or writes). -/
structure UserRow where
  id : Nat
  email : String
  name : String
  passwordHash : Option String
  preferences : UserPreferences
deriving Repr, DecidableEq

abbrev UserStore := List UserRow

/-- bcrypt is an external collaborator (out of scope per the spec); it is
modelled by a hash-function parameter `hashF`, with `bcrypt.compare(p, h)`
holding exactly when `h` is the hash of `p`. This preserves the round-trip
property `compare(p, hash(p)) = true` that the code relies on. -/
def verifyPassword (hashF : String → String) (password hash : String) : Bool :=
  hash == hashF password

/-- Model of `AuthService.register`: reject an already-used email with
`User with this email already exists`; otherwise hash the password and insert
the user with default preferences. Returns the new store and the created row. -/
def register (hashF : String → String) (freshId : Nat) (store : UserStore)
    (email name password : String) : Except String (UserStore × UserRow) :=
  match (store.filter (fun u => u.email == email)).head? with
  | some _ => .error "User with this email already exists"
  | none =>
    let newUser : UserRow :=
      { id := freshId
        email := email
        name := name
        passwordHash := some (hashF password)
        preferences :=
          { brand_voice := "professional", tone := "informative", default_hashtags := [] } }
    .ok (store ++ [newUser], newUser)

/-- Model of `AuthService.login`: unknown email → `Invalid email or password`; a stored
row without a password hash → `Password not set for this user`; failed
verification → `Invalid email or password`; otherwise the user. -/
def login (hashF : String → String) (store : UserStore) (email password : String) :
    Except String UserRow :=
  match (store.filter (fun u => u.email == email)).head? with
  | none => .error "Invalid email or password"
  | some user =>
    match user.passwordHash with
    | none => .error "Password not set for this user"
    | some h =>
      if verifyPassword hashF password h then .ok user
      else .error "Invalid email or password"

inductive LoginResponse where
  /-- HTTP 200 `Login successful` with the user id, email, name and a token -/
  | ok (id : Nat) (email name : String)
  /-- HTTP 401 with error `Unauthorized` and message `Invalid email or password` -/
  | unauthorized (error message : String)
  /-- HTTP 500 `Failed to login` -/
  | serverError
deriving Repr, DecidableEq

/-- Model of `AuthController.login` after zod validation: maps the two service error
messages to one 401 `Invalid email or password` response, everything else to a
500; on success returns the user's id, email and name. -/
def authControllerLogin (hashF : String → String) (store : UserStore)
    (email password : String) : LoginResponse :=
  match login hashF store email password with
  | .ok user => .ok user.id user.email user.name
  | .error msg =>
    if msg == "Invalid email or password" || msg == "Password not set for this user" then
      .unauthorized "Unauthorized" "Invalid email or password"
    else
      .serverError

/-! ### Derived row shapes -/

/-- The row `storeOAuthProvider` writes on its update path, given the existing row. -/
def updatedRow (now : Millis) (data : StoreOAuthData) (ex : OAuthRow) : OAuthRow :=
  { ex with
    accessToken := data.accessToken
    refreshToken := jsOrString data.refreshToken ex.refreshToken
    tokenExpiresAt := some (now + data.expiresIn * 1000)
    scopes := some data.scopes
    updatedAt := now }

/-- The row `storeOAuthProvider` writes on its insert path. -/
def insertedRow (now : Millis) (freshId : Nat) (userId provider : String)
    (data : StoreOAuthData) : OAuthRow :=
  { id := freshId
    userId := userId
    provider := provider
    providerUserId := data.providerUserId
    accessToken := data.accessToken
    refreshToken := data.refreshToken
    tokenExpiresAt := some (now + data.expiresIn * 1000)
    scopes := some data.scopes
    createdAt := now
    updatedAt := now }

/-! ### Store lemmas -/

theorem mem_of_head?_filter {p : OAuthRow → Bool} {l : OAuthStore} {x : OAuthRow}
    (h : (l.filter p).head? = some x) : x ∈ l ∧ p x = true := by
  have hx : x ∈ l.filter p := by
    cases hl : l.filter p with
    | nil => rw [hl] at h; simp at h
    | cons a t => rw [hl] at h; simp at h; simp [hl, h]
  exact ⟨(List.mem_filter.mp hx).1, (List.mem_filter.mp hx).2⟩

/-- Updating the row found by a first-match select, by its id, preserves it as
the first match, provided ids are unique (the primary-key invariant). -/
theorem head?_filter_update (p : OAuthRow → Bool) (l : OAuthStore)
    (hids : (l.map (fun r => r.id)).Nodup) (ex upd : OAuthRow)
    (hex : (l.filter p).head? = some ex)
    (hupd : p upd = true) (hid : upd.id = ex.id) :
    ((l.map (fun r => if r.id == ex.id then upd else r)).filter p).head? = some upd := by
  induction l with
  | nil => simp [List.filter] at hex
  | cons a t ih =>
    by_cases ha : p a
    · have hae : a = ex := by
        simp [List.filter_cons, ha] at hex
        exact hex
      subst hae
      simp [List.map_cons, List.filter_cons, hupd]
    · have hex' : (t.filter p).head? = some ex := by
        simpa [List.filter_cons, ha] using hex
      have hmem : ex ∈ t := (mem_of_head?_filter hex').1
      rw [List.map_cons] at hids
      have hnotin : a.id ∉ t.map (fun r => r.id) := (List.nodup_cons.mp hids).1
      have hids' : (t.map (fun r => r.id)).Nodup := (List.nodup_cons.mp hids).2
      have hane : (a.id == ex.id) = false := by
        have hidmem : ex.id ∈ t.map (fun r => r.id) := List.mem_map_of_mem _ hmem
        simp only [beq_eq_false_iff_ne, ne_eq]
        intro hcontra
        exact hnotin (hcontra ▸ hidmem)
      rw [List.map_cons]
      have hfa : (if a.id == ex.id then upd else a) = a := by rw [hane]; rfl
      rw [hfa, List.filter_cons, if_neg ha]
      exact ih hids' hex'

theorem head?_filter_append_single (p : OAuthRow → Bool) (l : OAuthStore)
    (x : OAuthRow) (hl : (l.filter p).head? = none) (hx : p x = true) :
    ((l ++ [x]).filter p).head? = some x := by
  have hnil : l.filter p = [] := List.head?_eq_none_iff.mp hl
  simp [List.filter_append, hnil, List.filter_cons, hx]

theorem storeOAuthProvider_update (now : Millis) (freshId : Nat) (store : OAuthStore)
    (uid prov : String) (data : StoreOAuthData) (ex : OAuthRow)
    (hids : (store.map (fun r => r.id)).Nodup)
    (hex : getOAuthProvider store uid prov = some ex) :
    (storeOAuthProvider now freshId store uid prov data).2 = updatedRow now data ex ∧
    getOAuthProvider (storeOAuthProvider now freshId store uid prov data).1 uid prov =
      some (updatedRow now data ex) := by
  have hpupd : rowMatches uid prov (updatedRow now data ex) = true := by
    have hpex : rowMatches uid prov ex = true :=
      (mem_of_head?_filter (p := rowMatches uid prov) hex).2
    simpa [rowMatches, updatedRow] using hpex
  constructor
  · simp only [storeOAuthProvider]
    rw [hex]
    rfl
  · have hmain := head?_filter_update (rowMatches uid prov) store hids ex
      (updatedRow now data ex) hex hpupd rfl
    simp only [storeOAuthProvider]
    rw [hex]
    exact hmain

theorem storeOAuthProvider_insert (now : Millis) (freshId : Nat) (store : OAuthStore)
    (uid prov : String) (data : StoreOAuthData)
    (hex : getOAuthProvider store uid prov = none) :
    storeOAuthProvider now freshId store uid prov data =
      (store ++ [insertedRow now freshId uid prov data],
        insertedRow now freshId uid prov data) ∧
    getOAuthProvider (storeOAuthProvider now freshId store uid prov data).1 uid prov =
      some (insertedRow now freshId uid prov data) := by
  have hp : rowMatches uid prov (insertedRow now freshId uid prov data) = true := by
    simp [rowMatches, insertedRow]
  constructor
  · simp only [storeOAuthProvider]
    rw [hex]
    rfl
  · have hmain := head?_filter_append_single (rowMatches uid prov) store
      (insertedRow now freshId uid prov data) hex hp
    simp only [storeOAuthProvider]
    rw [hex]
    exact hmain

/-! ### C1: upsert/get round trip and refresh-token preservation -/

/-- C1 (amended): upsert followed by get for the same (userId, provider) returns
the stored record. When no row exists, every field equals the upserted value
(the expiry being `now + expiresIn * 1000`). When a row already exists, every
reconnect stores the upserted access token, expiry and scopes; the prior
`providerUserId` is kept as-is; and the refresh token follows the JS
`data.refreshToken || existing.refreshToken` merge, so an upsert that omits
the refresh token preserves the prior row's refresh token (it is never nulled
out by a reconnect). Ids are assumed pairwise distinct (the primary-key
invariant). -/
theorem upsert_get_roundtrip (now : Millis) (freshId : Nat) (store : OAuthStore)
    (uid prov : String) (data : StoreOAuthData)
    (hids : (store.map (fun r => r.id)).Nodup) :
    (getOAuthProvider store uid prov = none →
      ∃ row, (storeOAuthProvider now freshId store uid prov data).2 = row ∧
        getOAuthProvider (storeOAuthProvider now freshId store uid prov data).1 uid prov =
          some row ∧
        row.providerUserId = data.providerUserId ∧
        row.accessToken = data.accessToken ∧
        row.refreshToken = data.refreshToken ∧
        row.tokenExpiresAt = some (now + data.expiresIn * 1000) ∧
        row.scopes = some data.scopes)
    ∧ (∀ ex, getOAuthProvider store uid prov = some ex →
      ∃ row, (storeOAuthProvider now freshId store uid prov data).2 = row ∧
        getOAuthProvider (storeOAuthProvider now freshId store uid prov data).1 uid prov =
          some row ∧
        row.accessToken = data.accessToken ∧
        row.tokenExpiresAt = some (now + data.expiresIn * 1000) ∧
        row.scopes = some data.scopes ∧
        row.providerUserId = ex.providerUserId ∧
        row.refreshToken = jsOrString data.refreshToken ex.refreshToken ∧
        (data.refreshToken = none → row.refreshToken = ex.refreshToken)) := by
  constructor
  · intro hnone
    obtain ⟨h1, h2⟩ := storeOAuthProvider_insert now freshId store uid prov data hnone
    refine ⟨insertedRow now freshId uid prov data, ?_, h2, rfl, rfl, rfl, rfl, rfl⟩
    rw [h1]
  · intro ex hex
    obtain ⟨h1, h2⟩ := storeOAuthProvider_update now freshId store uid prov data ex hids hex
    refine ⟨updatedRow now data ex, h1, h2, rfl, rfl, rfl, rfl, rfl, ?_⟩
    intro hrt
    simp [updatedRow, hrt, jsOrString]

/-- Witness for C1: a concrete store holding one connection with refresh token
`r0` and provider user id `old`; a reconnect upsert that omits the refresh
token stores and returns a record that keeps `r0` and `old` and carries the
new access token, expiry and scopes. -/
theorem upsert_get_roundtrip_witness :
    ∃ row,
      (storeOAuthProvider 50 9
        [{ id := 1, userId := "u", provider := "linkedin", providerUserId := "old",
           accessToken := "a0", refreshToken := some "r0", tokenExpiresAt := some 100,
           scopes := some ["openid"], createdAt := 0, updatedAt := 0 }]
        "u" "linkedin"
        { providerUserId := "new", accessToken := "a1", refreshToken := none,
          expiresIn := 2, scopes := callbackScopes }).2 = row ∧
      getOAuthProvider
        (storeOAuthProvider 50 9
          [{ id := 1, userId := "u", provider := "linkedin", providerUserId := "old",
             accessToken := "a0", refreshToken := some "r0", tokenExpiresAt := some 100,
             scopes := some ["openid"], createdAt := 0, updatedAt := 0 }]
          "u" "linkedin"
          { providerUserId := "new", accessToken := "a1", refreshToken := none,
            expiresIn := 2, scopes := callbackScopes }).1 "u" "linkedin" = some row ∧
      row.accessToken = "a1" ∧
      row.tokenExpiresAt = some (50 + (2 : Int) * 1000) ∧
      row.scopes = some callbackScopes ∧
      row.providerUserId = "old" ∧
      row.refreshToken = some "r0" := by
  obtain ⟨row, h1, h2, h3, h4, h5, h6, h7, h8⟩ :=
    (upsert_get_roundtrip 50 9
      [{ id := 1, userId := "u", provider := "linkedin", providerUserId := "old",
         accessToken := "a0", refreshToken := some "r0", tokenExpiresAt := some 100,
         scopes := some ["openid"], createdAt := 0, updatedAt := 0 }]
      "u" "linkedin"
      { providerUserId := "new", accessToken := "a1", refreshToken := none,
        expiresIn := 2, scopes := callbackScopes } (by decide)).2
      { id := 1, userId := "u", provider := "linkedin", providerUserId := "old",
        accessToken := "a0", refreshToken := some "r0", tokenExpiresAt := some 100,
        scopes := some ["openid"], createdAt := 0, updatedAt := 0 } (by decide)
  exact ⟨row, h1, h2, h3, h4, h5, h6, h8 rfl⟩

/-- C1 as frozen is too strong: when a row already exists, the upserted
`providerUserId` is not written — the update path only sets access token,
refresh token, expiry and scopes — so get after upsert returns the prior
`providerUserId` (`old`), not the upserted one (`new`). -/
theorem C1_counterexample :
    ((getOAuthProvider
        (storeOAuthProvider 50 9
          [{ id := 1, userId := "u", provider := "linkedin", providerUserId := "old",
             accessToken := "a0", refreshToken := some "r0", tokenExpiresAt := some 100,
             scopes := some ["openid"], createdAt := 0, updatedAt := 0 }]
          "u" "linkedin"
          { providerUserId := "new", accessToken := "a1", refreshToken := none,
            expiresIn := 2, scopes := callbackScopes }).1 "u" "linkedin").map
      (fun r => r.providerUserId) = some "old")
    ∧ ((storeOAuthProvider 50 9
          [{ id := 1, userId := "u", provider := "linkedin", providerUserId := "old",
             accessToken := "a0", refreshToken := some "r0", tokenExpiresAt := some 100,
             scopes := some ["openid"], createdAt := 0, updatedAt := 0 }]
          "u" "linkedin"
          { providerUserId := "new", accessToken := "a1", refreshToken := none,
            expiresIn := 2, scopes := callbackScopes }).2.providerUserId = "old")
    ∧ ("old" : String) ≠ "new" := by decide

/-! ### C5: expiry predicate -/

/-- C5: `isTokenExpired` is true exactly when the expiry is unset or the
current time is at or past it, and false otherwise. -/
theorem isTokenExpired_correct (now : Millis) (expiresAt : Option Millis) :
    isTokenExpired now expiresAt = true ↔
      (expiresAt = none ∨ ∃ t, expiresAt = some t ∧ t ≤ now) := by
  cases expiresAt with
  | none => simp [isTokenExpired]
  | some t =>
    simp only [isTokenExpired, decide_eq_true_eq, reduceCtorEq, false_or]
    constructor
    · intro h
      exact ⟨t, rfl, h⟩
    · rintro ⟨t', ht', hle⟩
      cases ht'
      exact hle

/-- Witness for C5 at a concrete expired timestamp. -/
theorem isTokenExpired_correct_witness :
    isTokenExpired 5 (some 3) = true ↔
      ((some 3 : Option Millis) = none ∨ ∃ t, (some 3 : Option Millis) = some t ∧ t ≤ 5) :=
  isTokenExpired_correct 5 (some 3)

/-! ### C4: status check -/

/-- C4: the status endpoint reports `connected=false, canPost=false` when no
row is stored for (userId, 'linkedin'); with a stored row it reports
connected, `canPost` true exactly when the token is not expired and
`w_member_social` is among the stored scopes, and `needsRefresh` true exactly
when the token is expired. -/
theorem linkedInStatus_correct (now : Millis) (store : OAuthStore) (uid : String) :
    (getOAuthProvider store uid "linkedin" = none →
      linkedInStatus now store (some uid) = .okNotConnected)
    ∧ (∀ p, getOAuthProvider store uid "linkedin" = some p →
      ∃ canPost,
        linkedInStatus now store (some uid) =
          .okConnected canPost p.tokenExpiresAt p.scopes (isTokenExpired now p.tokenExpiresAt) ∧
        (canPost = true ↔
          (isTokenExpired now p.tokenExpiresAt = false ∧
            ∃ l, p.scopes = some l ∧ "w_member_social" ∈ l))) := by
  constructor
  · intro hnone
    simp [linkedInStatus, hnone]
  · intro p hp
    refine ⟨!isTokenExpired now p.tokenExpiresAt && scopesAllowPost p.scopes, ?_, ?_⟩
    · simp [linkedInStatus, hp]
    · cases hs : p.scopes with
      | none => simp [scopesAllowPost, hs]
      | some l =>
        simp [scopesAllowPost, hs, Bool.and_eq_true, Bool.not_eq_true']

/-- Witness for C4: a stored, unexpired connection with the posting scope
yields a connected status whose `canPost` is true. -/
theorem linkedInStatus_correct_witness :
    ∃ canPost,
      linkedInStatus 5
        [{ id := 1, userId := "u", provider := "linkedin", providerUserId := "p",
           accessToken := "a", refreshToken := none, tokenExpiresAt := some 100,
           scopes := some ["w_member_social"], createdAt := 0, updatedAt := 0 }]
        (some "u") =
        .okConnected canPost (some 100) (some ["w_member_social"]) (isTokenExpired 5 (some 100)) ∧
      (canPost = true ↔
        (isTokenExpired 5 (some 100) = false ∧
          ∃ l, (some ["w_member_social"] : Option (List String)) = some l ∧
            "w_member_social" ∈ l)) :=
  (linkedInStatus_correct 5
    [{ id := 1, userId := "u", provider := "linkedin", providerUserId := "p",
       accessToken := "a", refreshToken := none, tokenExpiresAt := some 100,
       scopes := some ["w_member_social"], createdAt := 0, updatedAt := 0 }] "u").2
    { id := 1, userId := "u", provider := "linkedin", providerUserId := "p",
      accessToken := "a", refreshToken := none, tokenExpiresAt := some 100,
      scopes := some ["w_member_social"], createdAt := 0, updatedAt := 0 } (by decide)

/-! ### C9: disconnect idempotence -/

/-- C9: disconnecting always succeeds with a 200, deleting an absent connection
leaves the store unchanged, and disconnecting twice equals disconnecting once. -/
theorem disconnect_idempotent (store : OAuthStore) (uid : String) :
    (linkedInDisconnect store (some uid)).1 = .okDisconnected
    ∧ linkedInDisconnect (linkedInDisconnect store (some uid)).2 (some uid) =
        (.okDisconnected, (linkedInDisconnect store (some uid)).2)
    ∧ (getOAuthProvider store uid "linkedin" = none →
        (linkedInDisconnect store (some uid)).2 = store) := by
  refine ⟨rfl, ?_, ?_⟩
  · simp [linkedInDisconnect, removeOAuthProvider, List.filter_filter]
  · intro hnone
    have hnil : store.filter (rowMatches uid "linkedin") = [] :=
      List.head?_eq_none_iff.mp hnone
    have hall : ∀ r ∈ store, rowMatches uid "linkedin" r = false := by
      intro r hr
      simpa using List.filter_eq_nil_iff.mp hnil r hr
    simp only [linkedInDisconnect, removeOAuthProvider]
    exact List.filter_eq_self.mpr (fun r hr => by simp [hall r hr])

/-- Witness for C9: disconnecting on an empty store is a 200 no-op, twice over. -/
theorem disconnect_idempotent_witness :
    (linkedInDisconnect [] (some "u")).1 = .okDisconnected
    ∧ linkedInDisconnect (linkedInDisconnect [] (some "u")).2 (some "u") =
        (.okDisconnected, (linkedInDisconnect [] (some "u")).2)
    ∧ (linkedInDisconnect [] (some "u")).2 = [] :=
  ⟨(disconnect_idempotent [] "u").1, (disconnect_idempotent [] "u").2.1,
    (disconnect_idempotent [] "u").2.2 rfl⟩

/-! ### C6: one observable error kind for all login failures -/

/-- C6: whenever the login service fails — unknown email, stored record without
a password hash, or failed verification — the controller's observable response
is one and the same 401 `Invalid email or password`. -/
theorem login_single_error_kind (hashF : String → String) (store : UserStore)
    (email password : String)
    (h : ∃ e, login hashF store email password = .error e) :
    authControllerLogin hashF store email password =
      .unauthorized "Unauthorized" "Invalid email or password" := by
  obtain ⟨e, he⟩ := h
  have hmsg : e = "Invalid email or password" ∨ e = "Password not set for this user" := by
    unfold login at he
    cases hh : (store.filter (fun u => u.email == email)).head? with
    | none =>
      rw [hh] at he
      simp at he
      exact Or.inl he.symm
    | some user =>
      rw [hh] at he
      cases hph : user.passwordHash with
      | none =>
        simp [hph] at he
        exact Or.inr he.symm
      | some hsh =>
        simp only [hph] at he
        by_cases hv : verifyPassword hashF password hsh
        · simp [hv] at he
        · simp [hv] at he
          exact Or.inl he.symm
  unfold authControllerLogin
  rw [he]
  rcases hmsg with rfl | rfl
  · rfl
  · rfl

/-- Witness for C6: login against an empty user store (unknown email) maps to
the single 401 response. -/
theorem login_single_error_kind_witness :
    authControllerLogin (fun s => s) [] "a@b.com" "pw" =
      .unauthorized "Unauthorized" "Invalid email or password" :=
  login_single_error_kind (fun s => s) [] "a@b.com" "pw"
    ⟨"Invalid email or password", rfl⟩

/-! ### C2: invalid state handling on the callback -/

/-- C2 (amended): a callback whose state fails to decode is rejected with the
400 `Invalid state parameter` response and the store is untouched. A state
that decodes but lacks the user-id field, however, is not rejected with a 400:
the handler proceeds to the code exchange (JS property access on a parsed
object yields `undefined` without throwing), and in that case too no
connection row is created or mutated (the write is rejected by the
not-null `user_id` column). -/
theorem callback_invalid_state_no_write (now : Millis) (freshId : Nat)
    (store : OAuthStore) (code state : String)
    (tokenResp : TokenHttpResponse) (userResp : UserinfoHttpResponse) :
    (linkedInCallback now freshId store (some code) (some state) .failure tokenResp userResp =
      (.badRequestInvalidState, store))
    ∧ (tokenResp.ok = false →
      linkedInCallback now freshId store (some code) (some state) (.value none)
          tokenResp userResp =
        (.serverError ("Failed to exchange code: " ++ tokenResp.errorText), store))
    ∧ ((linkedInCallback now freshId store (some code) (some state) (.value none)
          tokenResp userResp).2 = store) := by
  refine ⟨rfl, ?_, ?_⟩
  · intro hok
    simp [linkedInCallback, exchangeLinkedInCode, hok]
  · simp only [linkedInCallback]
    cases hok : tokenResp.ok with
    | false => simp [exchangeLinkedInCode, hok]
    | true =>
      cases huok : userResp.ok with
      | false => simp [exchangeLinkedInCode, getLinkedInProfile, hok, huok]
      | true => simp [exchangeLinkedInCode, getLinkedInProfile, hok, huok]

/-- Witness for C2: a concrete undecodable state is rejected with a 400 and an
empty store stays empty; a decoded state with no user id is not rejected with
a 400 but still writes nothing. -/
theorem callback_invalid_state_no_write_witness :
    (linkedInCallback 0 1 [] (some "code") (some "not-base64-json") .failure
        ⟨false, "boom", "", 0, none, none⟩ ⟨true, "s", "e", some "n", "g", "f"⟩ =
      (.badRequestInvalidState, []))
    ∧ (linkedInCallback 0 1 [] (some "code") (some "e30=") (.value none)
        ⟨false, "boom", "", 0, none, none⟩ ⟨true, "s", "e", some "n", "g", "f"⟩ =
      (.serverError "Failed to exchange code: boom", []))
    ∧ ((linkedInCallback 0 1 [] (some "code") (some "e30=") (.value none)
        ⟨false, "boom", "", 0, none, none⟩ ⟨true, "s", "e", some "n", "g", "f"⟩).2 = []) :=
  ⟨(callback_invalid_state_no_write 0 1 [] "code" "not-base64-json"
      ⟨false, "boom", "", 0, none, none⟩ ⟨true, "s", "e", some "n", "g", "f"⟩).1,
    (callback_invalid_state_no_write 0 1 [] "code" "e30="
      ⟨false, "boom", "", 0, none, none⟩ ⟨true, "s", "e", some "n", "g", "f"⟩).2.1 rfl,
    (callback_invalid_state_no_write 0 1 [] "code" "e30="
      ⟨false, "boom", "", 0, none, none⟩ ⟨true, "s", "e", some "n", "g", "f"⟩).2.2⟩

/-- C2 as frozen is too strong: `e30=` decodes (base64 of `\x7b\x7d`, the empty
JSON object) but has no `userId` property; the handler does not return the 400
`InvalidStateError` response — it proceeds to the code exchange and here
surfaces a 500 from the failed exchange instead. -/
theorem C2_counterexample :
    ((linkedInCallback 0 1 [] (some "code") (some "e30=") (StateDecode.value none)
        ⟨false, "boom", "", 0, none, none⟩ ⟨true, "s", "e", some "n", "g", "f"⟩).1 ≠
      CallbackResponse.badRequestInvalidState)
    ∧ ((linkedInCallback 0 1 [] (some "code") (some "e30=") (StateDecode.value none)
        ⟨false, "boom", "", 0, none, none⟩ ⟨true, "s", "e", some "n", "g", "f"⟩).1 ≠
      CallbackResponse.badRequestMissing)
    ∧ ((linkedInCallback 0 1 [] (some "code") (some "e30=") (StateDecode.value none)
        ⟨false, "boom", "", 0, none, none⟩ ⟨true, "s", "e", some "n", "g", "f"⟩).1 =
      CallbackResponse.serverError "Failed to exchange code: boom") := by
  refine ⟨?_, ?_, rfl⟩ <;> decide

/-! ### C3: exchange/profile failure leaves the store unchanged -/

/-- C3: when the code exchange or the profile fetch fails, the callback
surfaces a 500 server error and the Credential Store is left unchanged — the
upsert runs only after both external calls have succeeded. -/
theorem callback_atomic (now : Millis) (freshId : Nat) (store : OAuthStore)
    (code state : String) (uid? : Option String)
    (tokenResp : TokenHttpResponse) (userResp : UserinfoHttpResponse)
    (hfail : tokenResp.ok = false ∨ userResp.ok = false) :
    ∃ d, linkedInCallback now freshId store (some code) (some state) (.value uid?)
        tokenResp userResp = (.serverError d, store) := by
  simp only [linkedInCallback]
  rcases hfail with hok | huok
  · exact ⟨"Failed to exchange code: " ++ tokenResp.errorText,
      by simp [exchangeLinkedInCode, hok]⟩
  · cases hok : tokenResp.ok with
    | false =>
      exact ⟨"Failed to exchange code: " ++ tokenResp.errorText,
        by simp [exchangeLinkedInCode, hok]⟩
    | true =>
      exact ⟨"Failed to fetch LinkedIn profile",
        by simp [exchangeLinkedInCode, getLinkedInProfile, hok, huok]⟩

/-- Witness for C3: a failing profile fetch after a successful exchange yields
a 500 and leaves a concrete one-row store unchanged. -/
theorem callback_atomic_witness :
    ∃ d,
      linkedInCallback 0 7
        [{ id := 1, userId := "u", provider := "linkedin", providerUserId := "p",
           accessToken := "a", refreshToken := none, tokenExpiresAt := some 100,
           scopes := some ["openid"], createdAt := 0, updatedAt := 0 }]
        (some "code") (some "st") (.value (some "u"))
        ⟨true, "", "tok", 60, none, none⟩ ⟨false, "s", "e", some "n", "g", "f"⟩ =
      (.serverError d,
        [{ id := 1, userId := "u", provider := "linkedin", providerUserId := "p",
           accessToken := "a", refreshToken := none, tokenExpiresAt := some 100,
           scopes := some ["openid"], createdAt := 0, updatedAt := 0 }]) :=
  callback_atomic 0 7
    [{ id := 1, userId := "u", provider := "linkedin", providerUserId := "p",
       accessToken := "a", refreshToken := none, tokenExpiresAt := some 100,
       scopes := some ["openid"], createdAt := 0, updatedAt := 0 }]
    "code" "st" (some "u")
    ⟨true, "", "tok", 60, none, none⟩ ⟨false, "s", "e", some "n", "g", "f"⟩
    (Or.inr rfl)

/-! ### C10: the stored scopes are the fixed list, never the token response's -/

/-- C10: every successful callback stores exactly
`['openid', 'profile', 'email', 'w_member_social']` as the connection's scopes,
and the result is unchanged under any value of the token response's `scope`
field — the exchange never reads it. -/
theorem callback_stores_fixed_scopes (now : Millis) (freshId : Nat)
    (store : OAuthStore) (code state uid : String)
    (tokenResp : TokenHttpResponse) (userResp : UserinfoHttpResponse)
    (hids : (store.map (fun r => r.id)).Nodup)
    (htr : tokenResp.ok = true) (hur : userResp.ok = true) :
    (∃ row,
      getOAuthProvider
        (linkedInCallback now freshId store (some code) (some state)
          (.value (some uid)) tokenResp userResp).2 uid "linkedin" = some row ∧
      row.scopes = some callbackScopes)
    ∧ (∀ sc, linkedInCallback now freshId store (some code) (some state)
          (.value (some uid)) { tokenResp with scope := sc } userResp =
        linkedInCallback now freshId store (some code) (some state)
          (.value (some uid)) tokenResp userResp) := by
  have hred : (linkedInCallback now freshId store (some code) (some state)
      (.value (some uid)) tokenResp userResp).2 =
      (storeOAuthProvider now freshId store uid "linkedin"
        { providerUserId := userResp.sub
          accessToken := tokenResp.access_token
          refreshToken := tokenResp.refresh_token
          expiresIn := tokenResp.expires_in
          scopes := callbackScopes }).1 := by
    simp [linkedInCallback, exchangeLinkedInCode, getLinkedInProfile, htr, hur]
  constructor
  · rw [hred]
    cases hex : getOAuthProvider store uid "linkedin" with
    | some ex =>
      exact ⟨updatedRow now
          { providerUserId := userResp.sub
            accessToken := tokenResp.access_token
            refreshToken := tokenResp.refresh_token
            expiresIn := tokenResp.expires_in
            scopes := callbackScopes } ex,
        (storeOAuthProvider_update now freshId store uid "linkedin" _ ex hids hex).2, rfl⟩
    | none =>
      exact ⟨insertedRow now freshId uid "linkedin"
          { providerUserId := userResp.sub
            accessToken := tokenResp.access_token
            refreshToken := tokenResp.refresh_token
            expiresIn := tokenResp.expires_in
            scopes := callbackScopes },
        (storeOAuthProvider_insert now freshId store uid "linkedin" _ hex).2, rfl⟩
  · intro sc
    simp [linkedInCallback, exchangeLinkedInCode, getLinkedInProfile, htr, hur]

/-- Witness for C10: a successful callback on an empty store stores the fixed
scope list even though the provider's token response granted only `openid`. -/
theorem callback_stores_fixed_scopes_witness :
    (∃ row,
      getOAuthProvider
        (linkedInCallback 0 7 [] (some "code") (some "st") (.value (some "u"))
          ⟨true, "", "tok", 60, none, some "openid"⟩
          ⟨true, "s", "e", some "n", "g", "f"⟩).2 "u" "linkedin" = some row ∧
      row.scopes = some callbackScopes)
    ∧ (∀ sc, linkedInCallback 0 7 [] (some "code") (some "st") (.value (some "u"))
          { (⟨true, "", "tok", 60, none, some "openid"⟩ : TokenHttpResponse) with
            scope := sc }
          ⟨true, "s", "e", some "n", "g", "f"⟩ =
        linkedInCallback 0 7 [] (some "code") (some "st") (.value (some "u"))
          ⟨true, "", "tok", 60, none, some "openid"⟩
          ⟨true, "s", "e", some "n", "g", "f"⟩) :=
  callback_stores_fixed_scopes 0 7 [] "code" "st" "u"
    ⟨true, "", "tok", 60, none, some "openid"⟩
    ⟨true, "s", "e", some "n", "g", "f"⟩ (by decide) rfl rfl

/-! ### C8: register then login round trip -/

/-- C8: for an email not already registered, `register` succeeds and a
subsequent `login` with the same credentials succeeds and returns the very
user `register` created — in particular the same user id. -/
theorem register_login_roundtrip (hashF : String → String) (freshId : Nat)
    (store : UserStore) (email name password : String)
    (hnew : store.filter (fun u => u.email == email) = []) :
    ∃ store2 user,
      register hashF freshId store email name password = .ok (store2, user) ∧
      user.id = freshId ∧
      login hashF store2 email password = .ok user := by
  have hhead : (store.filter (fun u => u.email == email)).head? = none := by
    rw [hnew]
    rfl
  set newUser : UserRow :=
    { id := freshId, email := email, name := name,
      passwordHash := some (hashF password),
      preferences := { brand_voice := "professional", tone := "informative",
                       default_hashtags := [] } } with hnu
  refine ⟨store ++ [newUser], newUser, ?_, rfl, ?_⟩
  · simp only [register]
    rw [hhead]
  · simp only [login]
    have hfil : (store ++ [newUser]).filter (fun u => u.email == email) = [newUser] := by
      rw [List.filter_append, hnew]
      simp [hnu]
    rw [hfil]
    simp [hnu, verifyPassword]

/-- Witness for C8: registering `a@b.com` on an empty store then logging in
returns the same user with id 1. -/
theorem register_login_roundtrip_witness :
    ∃ store2 user,
      register (fun s => "h:" ++ s) 1 [] "a@b.com" "Ann" "password123" =
        .ok (store2, user) ∧
      user.id = 1 ∧
      login (fun s => "h:" ++ s) store2 "a@b.com" "password123" = .ok user :=
  register_login_roundtrip (fun s => "h:" ++ s) 1 [] "a@b.com" "Ann" "password123" rfl

/-! ### C7: the authorization URL and the state parameter -/

theorem startsWithChars_append (n b : List Char) : startsWithChars n (n ++ b) = true := by
  induction n with
  | nil => rfl
  | cons c cs ih => simp [startsWithChars, ih]

theorem containsChars_of_startsWith {n h : List Char} (hp : startsWithChars n h = true) :
    containsChars n h = true := by
  cases h with
  | nil => simpa [containsChars] using hp
  | cons a t => simp [containsChars, hp]

theorem containsChars_append (n a b : List Char) :
    containsChars n (a ++ (n ++ b)) = true := by
  induction a with
  | nil => simpa using containsChars_of_startsWith (startsWithChars_append n b)
  | cons c cs ih => simp [containsChars, ih]

theorem strContains_of_data (hay needle : String) (A B : List Char)
    (hdecomp : hay.data = A ++ (needle.data ++ B)) :
    strContains hay needle = true := by
  unfold strContains
  rw [hdecomp]
  exact containsChars_append needle.data A B

theorem formEncodeList_safe {l : List Char} (h : ∀ c ∈ l, isFormSafe c = true) :
    formEncodeList l = l := by
  induction l with
  | nil => rfl
  | cons c cs ih =>
    have hc : isFormSafe c = true := h c (List.mem_cons_self c cs)
    have hcs : ∀ x ∈ cs, isFormSafe x = true := fun x hx => h x (List.mem_cons_of_mem c hx)
    simp [formEncodeList, encodeFormChar, hc, ih hcs]

/-- C7 (amended): `getLinkedInAuthUrl` is a pure function of its inputs and the
returned URL always contains the form-url-encoding of the caller-supplied
state as a substring; when every character of the state is one that
`URLSearchParams` leaves unescaped (ASCII alphanumerics and `*`, `-`, `.`,
`_`), the URL contains the state string verbatim. -/
theorem authUrl_contains_state (clientId callbackUrl state : String) :
    strContains (getLinkedInAuthUrl clientId callbackUrl state) (formEncode state) = true
    ∧ ((∀ c ∈ state.data, isFormSafe c = true) →
      strContains (getLinkedInAuthUrl clientId callbackUrl state) state = true) := by
  have hdata : (getLinkedInAuthUrl clientId callbackUrl state).data =
      ("https://www.linkedin.com/oauth/v2/authorization?response_type=code&client_id=".data
          ++ ((formEncode clientId).data
          ++ ("&redirect_uri=".data
          ++ ((formEncode callbackUrl).data
          ++ "&state=".data))))
        ++ ((formEncode state).data
          ++ ("&scope=".data
          ++ (formEncode "openid profile email w_member_social").data)) := by
    simp [getLinkedInAuthUrl, String.data_append, List.append_assoc]
  constructor
  · exact strContains_of_data _ _ _ _ hdata
  · intro hsafe
    have henc : formEncode state = state := by
      unfold formEncode
      rw [formEncodeList_safe hsafe]
    have h1 := strContains_of_data _ _ _ _ hdata
    rwa [henc] at h1

/-- Witness for C7: a purely alphanumeric state appears verbatim in the URL. -/
theorem authUrl_contains_state_witness :
    strContains (getLinkedInAuthUrl "cid" "http://cb" "abc") (formEncode "abc") = true
    ∧ strContains (getLinkedInAuthUrl "cid" "http://cb" "abc") "abc" = true :=
  ⟨(authUrl_contains_state "cid" "http://cb" "abc").1,
    (authUrl_contains_state "cid" "http://cb" "abc").2 (by decide)⟩

/-- C7 as frozen is too strong: `URLSearchParams` percent-encodes the state, so
a state such as `==` (base64 padding characters, which the connect flow's
base64-of-JSON states routinely end in) appears as `%3D%3D`, and the URL does
not contain it verbatim. -/
theorem C7_counterexample :
    strContains (getLinkedInAuthUrl "cid" "http://cb" "==") "==" = false := by decide
